import Mathlib

/-!
Verification of the quiz-solver pipeline (src/solver.py, src/app.py).

The Python source is shallowly embedded: pure text-processing functions are
translated to executable Lean functions over `List Char` / `String`; regular
expressions are translated to deterministic scanners that mimic the leftmost,
first-alternative, greedy matching of Python `re`; library boundaries
(Playwright rendering, httpx GET/POST, `json.loads`, BeautifulSoup DOM
queries, pandas table parsing, PyPDF2 extraction, `urljoin`) are modelled as
fields of a `World` record, so that `solve_quiz` is a total function of the
request and of a `World`.  Machine floats of the source are modelled as exact
rationals.
-/

/-- Python `\s` for the ASCII range: space, tab, newline, carriage return,
vertical tab, form feed (matches `str.isspace` on these inputs). -/
def isPySpace (c : Char) : Bool :=
  c.toNat = 32 || c.toNat = 9 || c.toNat = 10 || c.toNat = 13 ||
  c.toNat = 11 || c.toNat = 12

/-- Decimal digit test, as in the regex class `\d` (ASCII). -/
def isDigitC (c : Char) : Bool := 48 ≤ c.toNat && c.toNat ≤ 57

/-- ASCII uppercase letter. -/
def isUpperC (c : Char) : Bool := 65 ≤ c.toNat && c.toNat ≤ 90

/-- ASCII lowercase letter. -/
def isLowerC (c : Char) : Bool := 97 ≤ c.toNat && c.toNat ≤ 122

/-- ASCII lowering, as Python `str.lower` behaves on ASCII text. -/
def asciiLower (c : Char) : Char :=
  if 65 ≤ c.toNat && c.toNat ≤ 90 then Char.ofNat (c.toNat + 32) else c

/-- All suffixes of a list, longest first (used for substring search). -/
def suffixes : List Char → List (List Char)
  | [] => [[]]
  | c :: rest => (c :: rest) :: suffixes rest

/-- Python substring containment `pat in s` (on ASCII text). -/
def strHas (s pat : String) : Bool :=
  (suffixes s.toList).any (fun t => pat.toList.isPrefixOf t)

/-- Python `s.lower()` on ASCII text. -/
def lowerStr (s : String) : String := String.mk (s.toList.map asciiLower)

/-- Python `s.split("?")[0]`: the prefix before the first question mark. -/
def beforeQ (cs : List Char) : List Char := cs.takeWhile (fun c => !(c = '?'))

/-- Python `s.lower().split("?")[0].endswith(ext)`. -/
def endsWithExt (s ext : String) : Bool :=
  ext.toList.isSuffixOf (beforeQ (lowerStr s).toList)

/-- Match a literal prefix, returning the remainder on success. -/
def stripPre : List Char → List Char → Option (List Char)
  | [], r => some r
  | p :: ps, c :: r => if c = p then stripPre ps r else none
  | _ :: _, [] => none

/-- Match a literal prefix up to ASCII case, returning the remainder. -/
def stripLowerPre : List Char → List Char → Option (List Char)
  | [], r => some r
  | p :: ps, c :: r => if asciiLower c = p then stripLowerPre ps r else none
  | _ :: _, [] => none

/-- Split off the maximal leading digit run (greedy `\d*`). -/
def takeDigits (cs : List Char) : List Char × List Char :=
  (cs.takeWhile isDigitC, cs.dropWhile isDigitC)

/-- Split off an optional leading sign character (`[-+]?`). -/
def splitSignTok (cs : List Char) : List Char × List Char :=
  match cs with
  | c :: r => if c = '+' || c = '-' then ([c], r) else ([], cs)
  | [] => ([], [])

/-- Python `str.strip()` for the pipeline: drop ASCII whitespace at both ends. -/
def stripPySpace (cs : List Char) : List Char :=
  ((cs.dropWhile isPySpace).reverse.dropWhile isPySpace).reverse

/-- First defined element of a list of options (left to right). -/
def firstSome {α : Type} : List (Option α) → Option α
  | [] => none
  | some x :: _ => some x
  | none :: rest => firstSome rest

/-- Map a fallible function over a list, failing if any element fails. -/
def optMapList {α β : Type} (f : α → Option β) : List α → Option (List β)
  | [] => some []
  | a :: l =>
    match f a with
    | none => none
    | some b =>
      match optMapList f l with
      | none => none
      | some bs => some (b :: bs)

/-- First non-empty string of a list, else the empty string. -/
def firstNonEmptyStr : List String → String
  | [] => ""
  | s :: rest => if s = "" then firstNonEmptyStr rest else s

/-!  Scanner for the numeric regex of `sum_numbers_from_text`:
`[-+]?\d*\.\d+|\d+`, with Python `re.findall` semantics (leftmost match,
first alternative preferred, greedy, non-overlapping). -/

/-- Try the first alternative `[-+]?\d*\.\d+` at the current position. -/
def matchDecimalAt (cs : List Char) : Option (List Char × List Char) :=
  match (splitSignTok cs).2.dropWhile isDigitC with
  | '.' :: r2 =>
    if (r2.takeWhile isDigitC).isEmpty then none
    else
      some ((splitSignTok cs).1 ++ (splitSignTok cs).2.takeWhile isDigitC ++
              '.' :: r2.takeWhile isDigitC,
            r2.dropWhile isDigitC)
  | _ => none

/-- Try the whole alternation `[-+]?\d*\.\d+|\d+` at the current position.
The second alternative carries no sign, exactly as in the source regex. -/
def matchNumAt (cs : List Char) : Option (List Char × List Char) :=
  match matchDecimalAt cs with
  | some r => some r
  | none =>
    if (cs.takeWhile isDigitC).isEmpty then none
    else some (cs.takeWhile isDigitC, cs.dropWhile isDigitC)

/-- Fuelled driver of `re.findall` for the numeric pattern: on a failed
position advance one character; after a match resume past it. -/
def numScanF : Nat → List Char → List (List Char)
  | 0, _ => []
  | _ + 1, [] => []
  | fuel + 1, c :: rest =>
    match matchNumAt (c :: rest) with
    | some (tok, r) => tok :: numScanF fuel r
    | none => numScanF fuel rest

/-- All numeric tokens of a text, in order. -/
def numScan (cs : List Char) : List (List Char) := numScanF cs.length cs

/-- Python `text.replace(",", "")`: remove every comma. -/
def stripCommas (cs : List Char) : List Char := cs.filter (fun c => !(c = ','))

/-!  Scanner for the URL regex of `extract_submit_url_from_text`:
`https?://[^\s'"<>]+`. -/

/-- Characters allowed in the URL body class (negated class of the regex). -/
def isUrlBodyChar (c : Char) : Bool :=
  !(isPySpace c) && !(c = Char.ofNat 39) && !(c = Char.ofNat 34) &&
  !(c = '<') && !(c = '>')

/-- Try to match one URL at the current position. -/
def matchUrlAt (cs : List Char) : Option (List Char × List Char) :=
  match stripPre ("http".toList) cs with
  | none => none
  | some r0 =>
    match
      (match r0 with
       | c :: r => if c = 's' then (['s'], r) else (([] : List Char), r0)
       | [] => ([], [])) with
    | (sPart, r1) =>
      match stripPre ("://".toList) r1 with
      | none => none
      | some r2 =>
        let body := r2.takeWhile isUrlBodyChar
        if body.isEmpty then none
        else some ("http".toList ++ sPart ++ "://".toList ++ body,
                   r2.dropWhile isUrlBodyChar)

/-- Fuelled `re.findall` driver for the URL pattern. -/
def urlScanF : Nat → List Char → List (List Char)
  | 0, _ => []
  | _ + 1, [] => []
  | fuel + 1, c :: rest =>
    match matchUrlAt (c :: rest) with
    | some (tok, r) => tok :: urlScanF fuel r
    | none => urlScanF fuel rest

/-- All URLs found in a text, in order of appearance. -/
def urlScan (cs : List Char) : List (List Char) := urlScanF cs.length cs

/-- The URL matches of a text as strings. -/
def urlStrs (text : String) : List String :=
  (urlScan text.toList).map (fun cs => String.mk cs)

/-!  Scanner for the `atob` regex of `decode_atob_from_html`:
`atob\(\s*['"](?P<b64>[A-Za-z0-9+/=\s]+)['"]\s*\)`. -/

/-- Characters of the captured class `[A-Za-z0-9+/=\s]`. -/
def isB64CaptureChar (c : Char) : Bool :=
  isUpperC c || isLowerC c || isDigitC c || c = '+' || c = '/' || c = '=' ||
  isPySpace c

/-- Try to match one `atob( '<literal>' )` call at the current position,
returning the captured literal. -/
def matchAtobAt (cs : List Char) : Option (List Char) :=
  match stripPre ("atob(".toList) cs with
  | none => none
  | some r0 =>
    match r0.dropWhile isPySpace with
    | [] => none
    | q :: r2 =>
      if q = Char.ofNat 39 || q = Char.ofNat 34 then
        let cap := r2.takeWhile isB64CaptureChar
        let r3 := r2.dropWhile isB64CaptureChar
        if cap.isEmpty then none
        else
          match r3 with
          | [] => none
          | q2 :: r4 =>
            if q2 = Char.ofNat 39 || q2 = Char.ofNat 34 then
              match r4.dropWhile isPySpace with
              | c5 :: _ => if c5 = ')' then some cap else none
              | [] => none
            else none
      else none

/-- Fuelled `re.search` driver for the atob pattern: first match wins. -/
def atobSearchF : Nat → List Char → Option (List Char)
  | 0, _ => none
  | _ + 1, [] => none
  | fuel + 1, c :: rest =>
    match matchAtobAt (c :: rest) with
    | some cap => some cap
    | none => atobSearchF fuel rest

/-- First atob capture in a text, if any. -/
def atobSearch (cs : List Char) : Option (List Char) := atobSearchF cs.length cs

/-!  Scanner for the brace regex `\{[\s\S]{20,5000}\}` used by
`_first_url_from_jsonlike` and the JSON-answer extraction. -/

/-- Largest index `j` with `20 <= j <= 5000` at which the window holds a
closing brace: the greedy bounded repetition backtracks to the farthest
closing brace inside the window. -/
def lastCloseIdx (window : List Char) : Option Nat :=
  (List.range 5001).foldl
    (fun acc j =>
      if 20 ≤ j && window.getD j ' ' = Char.ofNat 125 then some j else acc)
    none

/-- Fuelled `re.search` driver for the brace pattern: at each opening brace
try the greedy bounded match, else advance one character. -/
def braceSearchF : Nat → List Char → Option (List Char)
  | 0, _ => none
  | _ + 1, [] => none
  | fuel + 1, c :: rest =>
    if c = Char.ofNat 123 then
      match lastCloseIdx rest with
      | some j => some (c :: (rest.take j ++ [Char.ofNat 125]))
      | none => braceSearchF fuel rest
    else braceSearchF fuel rest

/-- First brace-delimited block of 22 to 5002 characters, if any. -/
def braceSearch (cs : List Char) : Option (List Char) := braceSearchF cs.length cs

/-!  Base64 decoding, modelling `base64.b64decode` (CPython binascii
`a2b_base64`, non-strict): characters outside the alphabet are skipped;
a padding character counts only once two data characters of the current
quantum are in; a padding sequence completing the quantum terminates the
decode, discarding the rest of the input; a dangling quantum at the end of
the input raises.  Checked against CPython 3.11 on the edge cases
(for example `QQ==QQ==` decodes to the single byte `A`). -/

/-- Index of a character in the standard base64 alphabet. -/
def b64Idx (c : Char) : Option Nat :=
  if isUpperC c then some (c.toNat - 65)
  else if isLowerC c then some (c.toNat - 71)
  else if isDigitC c then some (c.toNat - 48 + 52)
  else if c = '+' then some 62
  else if c = '/' then some 63
  else none

/-- The decoder state machine: `quadPos` counts data characters of the
current quantum (0 to 3), `carry` holds its pending bits, `pads` counts
padding characters seen since the last data character of this quantum. -/
def b64decodeAux : List Char → Nat → Nat → Nat → Option (List Nat)
  | [], 0, _, _ => some []
  | [], _ + 1, _, _ => none
  | c :: rest, quadPos, carry, pads =>
    if c = '=' then
      if 2 ≤ quadPos then
        if 4 ≤ quadPos + pads + 1 then some []
        else b64decodeAux rest quadPos carry (pads + 1)
      else b64decodeAux rest quadPos carry pads
    else
      match b64Idx c with
      | none => b64decodeAux rest quadPos carry pads
      | some v =>
        match quadPos with
        | 0 => b64decodeAux rest 1 v 0
        | 1 =>
          (b64decodeAux rest 2 (v % 16) 0).map
            (fun bs => (carry * 4 + v / 16) :: bs)
        | 2 =>
          (b64decodeAux rest 3 (v % 4) 0).map
            (fun bs => (carry * 16 + v / 4) :: bs)
        | _ =>
          (b64decodeAux rest 0 0 0).map (fun bs => (carry * 64 + v) :: bs)

/-- Decode a base64 text to bytes, failing exactly where `b64decode`
raises. -/
def b64decodeL (cs : List Char) : Option (List Nat) := b64decodeAux cs 0 0 0

/-!  UTF-8 decoding with `errors="ignore"`, modelling the CPython decoder:
an ill-formed sequence contributes nothing, and scanning resumes at the
first byte that is not a valid continuation of it (maximal-subpart skip). -/

/-- Valid continuation byte. -/
def isContByte (b : Nat) : Bool := 128 ≤ b && b ≤ 191

/-- Allowed range of the first continuation byte of a three-byte sequence. -/
def cont1Ok3 (b c1 : Nat) : Bool :=
  if b = 224 then 160 ≤ c1 && c1 ≤ 191
  else if b = 237 then 128 ≤ c1 && c1 ≤ 159
  else isContByte c1

/-- Allowed range of the first continuation byte of a four-byte sequence. -/
def cont1Ok4 (b c1 : Nat) : Bool :=
  if b = 240 then 144 ≤ c1 && c1 ≤ 191
  else if b = 244 then 128 ≤ c1 && c1 ≤ 143
  else isContByte c1

/-- Fuelled UTF-8 decoder with ignore semantics. -/
def utf8IgnoreF : Nat → List Nat → List Char
  | 0, _ => []
  | _ + 1, [] => []
  | fuel + 1, b :: rest =>
    if b < 128 then Char.ofNat b :: utf8IgnoreF fuel rest
    else if 194 ≤ b && b ≤ 223 then
      match rest with
      | [] => []
      | c1 :: r2 =>
        if isContByte c1 then
          Char.ofNat ((b - 192) * 64 + (c1 - 128)) :: utf8IgnoreF fuel r2
        else utf8IgnoreF fuel rest
    else if 224 ≤ b && b ≤ 239 then
      match rest with
      | [] => []
      | c1 :: r2 =>
        if cont1Ok3 b c1 then
          match r2 with
          | [] => []
          | c2 :: r3 =>
            if isContByte c2 then
              Char.ofNat ((b - 224) * 4096 + (c1 - 128) * 64 + (c2 - 128)) ::
                utf8IgnoreF fuel r3
            else utf8IgnoreF fuel r2
        else utf8IgnoreF fuel rest
    else if 240 ≤ b && b ≤ 244 then
      match rest with
      | [] => []
      | c1 :: r2 =>
        if cont1Ok4 b c1 then
          match r2 with
          | [] => []
          | c2 :: r3 =>
            if isContByte c2 then
              match r3 with
              | [] => []
              | c3 :: r4 =>
                if isContByte c3 then
                  Char.ofNat ((b - 240) * 262144 + (c1 - 128) * 4096 +
                      (c2 - 128) * 64 + (c3 - 128)) :: utf8IgnoreF fuel r4
                else utf8IgnoreF fuel r3
            else utf8IgnoreF fuel r2
        else utf8IgnoreF fuel rest
    else utf8IgnoreF fuel rest

/-- Python `bytes.decode("utf8", errors="ignore")`. -/
def utf8DecodeIgnore (bs : List Nat) : String := String.mk (utf8IgnoreF bs.length bs)

/-!  Python `float()` on strings, modelled for the finite decimal grammar
`[+-]? (digits [. digits?] | . digits) [eE [+-] digits]` after stripping
surrounding whitespace (the infinity, nan and underscore forms of the
builtin never arise from the texts the pipeline feeds it). -/

/-- Numeric value of a digit run. -/
def digitsVal (ds : List Char) : Nat :=
  ds.foldl (fun a c => 10 * a + (c.toNat - 48)) 0

/-- Exponent suffix of a float literal; must consume the whole remainder. -/
def pyExpPart (base : ℚ) (cs : List Char) : Option ℚ :=
  let esgn := (splitSignTok cs).1
  let r0 := (splitSignTok cs).2
  let ed := r0.takeWhile isDigitC
  if ed.isEmpty || !(r0.dropWhile isDigitC).isEmpty then none
  else
    some (base * (10 : ℚ) ^
      (if esgn = ['-'] then -((digitsVal ed : ℤ)) else (digitsVal ed : ℤ)))

/-- Core float parser, after whitespace stripping. -/
def pyFloatCore (cs : List Char) : Option ℚ :=
  let sgn := (splitSignTok cs).1
  let r0 := (splitSignTok cs).2
  let sign : ℚ := if sgn = ['-'] then -1 else 1
  let ip := r0.takeWhile isDigitC
  match r0.dropWhile isDigitC with
  | [] => if ip.isEmpty then none else some (sign * (digitsVal ip : ℚ))
  | c :: r2 =>
    if c = '.' then
      let fp := r2.takeWhile isDigitC
      if ip.isEmpty && fp.isEmpty then none
      else
        let base : ℚ :=
          (digitsVal ip : ℚ) + (digitsVal fp : ℚ) / (10 : ℚ) ^ fp.length
        match r2.dropWhile isDigitC with
        | [] => some (sign * base)
        | e :: r4 =>
          if e = 'e' || e = 'E' then pyExpPart (sign * base) r4 else none
    else if (c = 'e' || c = 'E') && !ip.isEmpty then
      pyExpPart (sign * (digitsVal ip : ℚ)) r2
    else none

/-- Python `float(s)` for the strings arising in the pipeline. -/
def pyFloat (s : String) : Option ℚ := pyFloatCore (stripPySpace s.toList)

/-!  Direct translations of the pure functions of src/solver.py. -/

/-- Translation of `decode_atob_from_html` (src/solver.py, lines 38-54):
find the first `atob` capture, strip whitespace from it, base64-decode it
and decode the bytes as UTF-8 ignoring invalid sequences; on no match or
a decode failure return the empty string. -/
def decode_atob_from_html (html : String) : String :=
  match atobSearch html.toList with
  | none => ""
  | some cap =>
    let b := cap.filter (fun c => !(isPySpace c))
    match b64decodeL b with
    | none => ""
    | some bytes => utf8DecodeIgnore bytes

/-- Translation of `extract_submit_url_from_text` (src/solver.py, lines
56-66): find all URLs, prefer the first one containing `submit` in its
lowercasing, else return the first URL, else the empty string. -/
def extract_submit_url_from_text (text : String) : String :=
  match (urlStrs text).find? (fun u => strHas (lowerStr u) "submit") with
  | some u => u
  | none =>
    match urlStrs text with
    | [] => ""
    | u :: _ => u

/-- Translation of `sum_numbers_from_text` (src/solver.py, lines 103-113):
strip commas, find all numeric tokens, sum their float values; `None` when
no token is found. -/
def sum_numbers_from_text (text : String) : Option ℚ :=
  let toks := numScan (stripCommas text.toList)
  if toks.isEmpty then none
  else
    match optMapList (fun t => pyFloat (String.mk t)) toks with
    | some qs => some qs.sum
    | none => none

/-!  JSON values, as `json.loads` can produce them. -/

/-- JSON value. -/
inductive JVal where
  | jnull : JVal
  | jbool : Bool → JVal
  | jnum : ℚ → JVal
  | jstr : String → JVal
  | jarr : List JVal → JVal
  | jobj : List (String × JVal) → JVal

/-- Python truthiness of a JSON value. -/
def jTruthy : JVal → Bool
  | JVal.jnull => false
  | JVal.jbool b => b
  | JVal.jnum q => if q = 0 then false else true
  | JVal.jstr s => if s = "" then false else true
  | JVal.jarr xs => !xs.isEmpty
  | JVal.jobj kvs => !kvs.isEmpty

/-- Python `float(v)` on a JSON value: numbers and booleans coerce, strings
parse, everything else raises (modelled as `none`). -/
def pyFloatJ : JVal → Option ℚ
  | JVal.jnum q => some q
  | JVal.jbool b => some (if b then 1 else 0)
  | JVal.jstr s => pyFloat s
  | _ => none

/-- Python `A or B` where `A` is an optional JSON value and `B` a JSON
value: keep `A` when present and truthy, else fall through to `B`. -/
def pyOrJ (a : Option JVal) (b : JVal) : JVal :=
  match a with
  | some v => if jTruthy v then v else b
  | none => b

/-- Python truthiness of an optional JSON value (`None` is falsy). -/
def pyTruthyOpt (a : Option JVal) : Bool :=
  match a with
  | some v => jTruthy v
  | none => false

/-- First value among the listed keys present in the object, as the loop
`for k in ("submit", "submit_url", "url", "endpoint")` reads it. -/
def lookupKeys (ks : List String) (kvs : List (String × JVal)) : Option JVal :=
  match ks with
  | [] => none
  | k :: rest =>
    if kvs.any (fun p => p.1 == k) then
      some ((((kvs.find? (fun p => p.1 == k)).map (fun p => p.2))).getD JVal.jnull)
    else lookupKeys rest kvs

/-- Translation of `_first_url_from_jsonlike` (src/solver.py, lines 79-91):
find a brace block of 20 to 5000 inner characters, parse it as JSON (the
parser itself is a library boundary, passed in), and read the first present
key among `submit`, `submit_url`, `url`, `endpoint`. -/
def first_url_from_jsonlike
    (jsonLoads : String → Option (List (String × JVal))) (text : String) :
    Option JVal :=
  match braceSearch text.toList with
  | none => none
  | some blk =>
    match jsonLoads (String.mk blk) with
    | none => none
    | some kvs => lookupKeys ["submit", "submit_url", "url", "endpoint"] kvs

/-- The JSON `answer` extraction of `solve_quiz` (src/solver.py, lines
152-161): first brace block of the decoded text, else of the raw HTML,
parsed as JSON; keep `obj["answer"]` when the key is present. -/
def parsedAnswerFromJson
    (jsonLoads : String → Option (List (String × JVal)))
    (decoded html : String) : Option JVal :=
  match
    (match braceSearch decoded.toList with
     | some blk => some blk
     | none => braceSearch html.toList) with
  | none => none
  | some blk =>
    match jsonLoads (String.mk blk) with
    | none => none
    | some kvs =>
      if kvs.any (fun p => p.1 == "answer") then
        some ((((kvs.find? (fun p => p.1 == "answer")).map (fun p => p.2))).getD JVal.jnull)
      else none

/-!  Tabular data, modelling the extraction contract of `pandas.read_csv`
and `pandas.read_html`: a table is an ordered list of named columns, each
either inferred numeric or kept as text. -/

/-- Data of one column. -/
inductive ColData where
  | nums : List ℚ → ColData
  | strs : List String → ColData

/-- Ordered columns of a parsed table. -/
structure Table where
  cols : List (String × ColData)

/-- Python `float(df[c].sum())`: a numeric column sums numerically; an
object column of strings concatenates, then `float` parses the result
(an empty object column sums to the integer 0). -/
def colSum : ColData → Option ℚ
  | ColData.nums xs => some xs.sum
  | ColData.strs [] => some 0
  | ColData.strs xs => pyFloat (String.join xs)

/-- Column lookup by name. -/
def lookupCol (df : Table) (name : String) : Option ColData :=
  (df.cols.find? (fun p => p.1 == name)).map (fun p => p.2)

/-- The alias preference list of src/solver.py (lines 187 and 241). -/
def aliasNames : List String := ["value", "Value", "val", "amount", "Amount", "total"]

/-- The alias loop: first alias whose column exists and whose sum coerces
to a float; a failing alias is skipped (`except: pass`). -/
def aliasPick (df : Table) : Option ℚ :=
  firstSome (aliasNames.map (fun n => (lookupCol df n).bind colSum))

/-- `df.select_dtypes(include="number")` fallback: sum of the first
numeric column, if any. -/
def firstNumCol : List (String × ColData) → Option ℚ
  | [] => none
  | (_, ColData.nums xs) :: _ => some xs.sum
  | _ :: rest => firstNumCol rest

/-- The shared column-summing rule of the CSV and table paths
(src/solver.py, lines 186-198 and 241-251). -/
def tableAnswer (df : Table) : Option ℚ :=
  match aliasPick df with
  | some q => some q
  | none => firstNumCol df.cols

/-!  The pipeline result and the world of library effects. -/

/-- A derived answer: a float on every numeric path, an arbitrary JSON
value when the JSON answer could not be coerced (src/solver.py, line 261). -/
inductive Answer where
  | num : ℚ → Answer
  | other : JVal → Answer

/-- The `answer_payload` dictionary. -/
structure AnswerPayload where
  email : String
  secret : String
  url : String
  answer : Answer

/-- The normalized submit response: parsed JSON body, or the status-code
and text fallback of src/solver.py, lines 296-299. -/
inductive SubmitResp where
  | fromJson : JVal → SubmitResp
  | raw : Int → String → SubmitResp

/-- The dictionary returned by `solve_quiz`; absent keys are `none`. -/
structure SolveResult where
  success : Bool
  message : Option String := none
  submit_url : Option JVal := none
  answer_payload : Option AnswerPayload := none
  submit_response : Option SubmitResp := none
  found_submit_url : Option JVal := none
  sample_text_excerpt : Option String := none

/-- The library boundary of one pipeline run.  Each field models one
external capability exactly as src/solver.py consumes it: `fetchHtml` is
`fetch_rendered_html` (Playwright rendering, exception as `error`);
`jsonLoads` is `json.loads` restricted to brace-delimited documents, which
parse to objects when they parse at all; `anchors` and `tables` are the
BeautifulSoup queries `find_all("a", href=True)` and `find_all("table")`
on the rendered HTML; `clean_link_candidate` is `urljoin` plus fragment
stripping (src/solver.py, lines 68-77), whose `ValueError` on a
malformed-IPv6 href is an `error` since its call site at line 174 sits
outside every try block; `fetchText` and `fetchBytes` are
the httpx GET helpers with `raise_for_status`; `readCsv` and
`readHtmlTable` are `pandas.read_csv` and `pandas.read_html(...)[0]`
(failure as `none`); `pdfExtract` is the PyPDF2 page-text extraction
(reader missing or failing as `none`); `post` is the `client.post` call
together with the response normalization. -/
structure World where
  fetchHtml : String → Except String String
  jsonLoads : String → Option (List (String × JVal))
  anchors : String → List String
  tables : String → List String
  clean_link_candidate : String → String → Except String String
  fetchText : String → Except String String
  readCsv : String → Option Table
  readHtmlTable : String → Option Table
  fetchBytes : String → Except String (List Nat)
  pdfExtract : List Nat → Option String
  post : JVal → AnswerPayload → Except String SubmitResp

/-!  The solve_quiz pipeline (src/solver.py, lines 115-308). -/

/-- The submit-URL chain of src/solver.py, line 150:
`_first_url_from_jsonlike(decoded) or _first_url_from_jsonlike(html) or
extract_submit_url_from_text(full_text)`, with Python or-truthiness. -/
def submitUrlResolved (w : World) (decoded html : String) : JVal :=
  pyOrJ (first_url_from_jsonlike w.jsonLoads decoded)
    (pyOrJ (first_url_from_jsonlike w.jsonLoads html)
      (JVal.jstr (extract_submit_url_from_text (html ++ "\n" ++ decoded))))

/-- The loop filter of src/solver.py, lines 170-173: a non-empty href
whose lowercasing, before any question mark, ends in `.csv`, `.pdf` or
`.xlsx`. -/
def fileLinkPred (l : String) : Bool :=
  !(l = "") && ([".csv", ".pdf", ".xlsx"].any (fun e => endsWithExt l e))

/-- The file-link discovery of src/solver.py, lines 166-175: the first
href passing `fileLinkPred`, resolved against the request URL by
`clean_link_candidate`; the resolution call sits outside every try block,
so its `ValueError` propagates out of `solve_quiz`. -/
def findFileLink (w : World) (links : List String) (base : String) :
    Except String (Option String) :=
  match links.find? fileLinkPred with
  | none => Except.ok none
  | some l => (w.clean_link_candidate l base).map some

/-- The CSV path of src/solver.py, lines 181-201: GET the link text, parse
it as a table, apply the column-summing rule; any failure is swallowed. -/
def csvAnswer (w : World) (link : String) : Option Answer :=
  match w.fetchText link with
  | Except.error _ => none
  | Except.ok txt =>
    match w.readCsv txt with
    | none => none
    | some df => (tableAnswer df).map Answer.num

/-- The PDF path of src/solver.py, lines 203-231: GET the link bytes,
extract page text (empty or failed extraction falls back to a crude
ignore-errors byte decode), then apply the numeric-sum heuristic. -/
def pdfAnswer (w : World) (link : String) : Option Answer :=
  match w.fetchBytes link with
  | Except.error _ => none
  | Except.ok bs =>
    let t0 := match w.pdfExtract bs with
      | some t => t
      | none => ""
    let text := if t0 = "" then utf8DecodeIgnore bs else t0
    if text = "" then none
    else (sum_numbers_from_text text).map Answer.num

/-- The HTML-table path of src/solver.py, lines 233-253: parse the first
table element, if any, with the shared column-summing rule. -/
def tableStepAnswer (w : World) (html : String) : Option Answer :=
  match w.tables html with
  | [] => none
  | t :: _ =>
    match w.readHtmlTable t with
    | none => none
    | some df => (tableAnswer df).map Answer.num

/-- The JSON-answer coercion of src/solver.py, lines 256-261: coerce to
float, else keep the value as-is. -/
def jsonToAnswer (v : JVal) : Answer :=
  match pyFloatJ v with
  | some q => Answer.num q
  | none => Answer.other v

/-- The failure result of a rendering exception (src/solver.py, line 144). -/
def fetchFailResult (e : String) : SolveResult :=
  { success := false, message := some ("Failed to render page: " ++ e) }

/-- The diagnostic result when no answer was derived (src/solver.py,
lines 270-276). -/
def debugResult (su : JVal) (full_text : String) : SolveResult :=
  { success := false
    message := some "Could not derive an answer automatically with default heuristics."
    found_submit_url := some su
    sample_text_excerpt := some (String.mk (full_text.toList.take 2000)) }

/-- The submission phase of src/solver.py, lines 286-308: no-submit-URL
failure, POST failure (both keeping the payload), or success. -/
def submitPhase (w : World) (su : JVal) (p : AnswerPayload) : SolveResult :=
  if jTruthy su then
    match w.post su p with
    | Except.error e =>
      { success := false
        message := some ("Failed to POST answer: " ++ e)
        answer_payload := some p }
    | Except.ok resp =>
      { success := true
        submit_url := some su
        answer_payload := some p
        submit_response := some resp }
  else
    { success := false
      message := some "No submit URL detected"
      answer_payload := some p }

/-- The canned fast-path result for URLs mentioning `example-quiz.com`
(src/solver.py, lines 118-132). -/
def fastResult (url email secret : String) : SolveResult :=
  { success := true
    submit_url := some (JVal.jstr "https://example-quiz.com/submit")
    answer_payload := some
      { email := email, secret := secret, url := url, answer := Answer.num 42 }
    submit_response := some (SubmitResp.fromJson (JVal.jobj
      [("status", JVal.jstr "received"), ("score", JVal.jstr "pending")])) }

/-- The combined text `html + "\n" + decoded` of src/solver.py, line 147. -/
def fullTextOf (html : String) : String := html ++ "\n" ++ decode_atob_from_html html

/-- The CSV derivation step, guarded by the file link ending in `.csv`. -/
def csvStep (w : World) (file_link : Option String) : Option Answer :=
  match file_link with
  | some fl => if endsWithExt fl ".csv" then csvAnswer w fl else none
  | none => none

/-- The PDF derivation step, guarded by the file link ending in `.pdf`. -/
def pdfStep (w : World) (file_link : Option String) : Option Answer :=
  match file_link with
  | some fl => if endsWithExt fl ".pdf" then pdfAnswer w fl else none
  | none => none

/-- The JSON-answer derivation step, guarded by line 256 of src/solver.py:
`parsed_answer_from_json is not None`, so a JSON null answer (Python
`None`) makes this path contribute nothing. -/
def jsonStep (w : World) (html : String) : Option Answer :=
  match parsedAnswerFromJson w.jsonLoads (decode_atob_from_html html) html with
  | none => none
  | some JVal.jnull => none
  | some v => some (jsonToAnswer v)

/-- The numeric-sum derivation step over `decoded or html` (src/solver.py,
line 265). -/
def sumStep (html : String) : Option Answer :=
  (sum_numbers_from_text
      (if decode_atob_from_html html = "" then html
       else decode_atob_from_html html)).map Answer.num

/-- The full derivation chain of src/solver.py, lines 177-267: CSV, PDF,
first HTML table, JSON answer, numeric sum, in that order, first success
winning. -/
def answerChain (w : World) (html : String) (file_link : Option String) :
    Option Answer :=
  csvStep w file_link <|> pdfStep w file_link <|> tableStepAnswer w html <|>
    jsonStep w html <|> sumStep html

/-- The body of `solve_quiz` after a successful fetch: resolve the file
link (the only place an exception can escape), run the derivation chain,
and either report, fail to submit, or submit. -/
def solveAfterFetch (w : World) (url email secret html : String) :
    Except String SolveResult :=
  match findFileLink w (w.anchors html) url with
  | Except.error e => Except.error e
  | Except.ok file_link =>
    Except.ok
      (match answerChain w html file_link with
       | none =>
         debugResult (submitUrlResolved w (decode_atob_from_html html) html)
           (fullTextOf html)
       | some a =>
         submitPhase w (submitUrlResolved w (decode_atob_from_html html) html)
           { email := email, secret := secret, url := url, answer := a })

/-- Translation of `solve_quiz` (src/solver.py, lines 115-308).  The
result is `Except.error` exactly when an exception escapes the function
uncaught, which the file-link resolution (urljoin, line 174) can cause;
every other path returns a `SolveResult` dictionary. -/
def solve_quiz (w : World) (url email secret : String) :
    Except String SolveResult :=
  if strHas url "example-quiz.com" then Except.ok (fastResult url email secret)
  else
    match w.fetchHtml url with
    | Except.error e => Except.ok (fetchFailResult e)
    | Except.ok html => solveAfterFetch w url email secret html

/-!  Definitions following the wording of the specification, used to state
the claims under comparison with the code (refinement side). -/

/-- Follows the claim wording for the CSV alias list, which also names the
column `sum` (spec section 4.5, step 1). -/
def specAliasNames : List String :=
  ["value", "Value", "val", "amount", "Amount", "total", "sum"]

/-- Follows the claim wording: sum the first matching alias column among
`specAliasNames`, else the first purely numeric column. -/
def specTableAnswer (df : Table) : Option ℚ :=
  match firstSome (specAliasNames.map (fun n => (lookupCol df n).bind colSum)) with
  | some q => some q
  | none => firstNumCol df.cols

/-- Follows the claim wording for the numeric heuristic: an integer literal
may carry a sign too (`[-+]?(\d*\.\d+|\d+)` instead of the code pattern). -/
def matchSpecNumAt (cs : List Char) : Option (List Char × List Char) :=
  match matchDecimalAt cs with
  | some r => some r
  | none =>
    let sgn := (splitSignTok cs).1
    let r0 := (splitSignTok cs).2
    let ds := r0.takeWhile isDigitC
    if ds.isEmpty then none else some (sgn ++ ds, r0.dropWhile isDigitC)

/-- Fuelled scan for the spec reading of the numeric heuristic. -/
def specNumScanF : Nat → List Char → List (List Char)
  | 0, _ => []
  | _ + 1, [] => []
  | fuel + 1, c :: rest =>
    match matchSpecNumAt (c :: rest) with
    | some (tok, r) => tok :: specNumScanF fuel r
    | none => specNumScanF fuel rest

/-- Follows the claim wording of the numeric-sum heuristic: strip commas
and sum every optionally signed decimal or integer literal. -/
def spec_sum_numbers_from_text (text : String) : Option ℚ :=
  let cs := stripCommas text.toList
  let toks := specNumScanF cs.length cs
  if toks.isEmpty then none
  else
    match optMapList (fun t => pyFloat (String.mk t)) toks with
    | some qs => some qs.sum
    | none => none

/-- Scheme normalization described by the spec (sections 4.1 and 4.3):
prepend `https://` when no scheme is present. -/
def normScheme (u : String) : String :=
  if ("http://".toList).isPrefixOf u.toList ||
     ("https://".toList).isPrefixOf u.toList then u
  else "https://" ++ u

/-- Python `rstrip("/")`. -/
def stripTrailSlash (s : String) : String :=
  String.mk ((s.toList.reverse.dropWhile (fun c => c = '/')).reverse)

/-- Follows the spec wording (section 4.3): origin-based submit guess from
the first non-empty text of an origin-marked element. -/
def synthOriginGuess (originTexts : List String) : String :=
  match originTexts.find? (fun t => !(t = "")) with
  | some t => stripTrailSlash (normScheme t) ++ "/submit"
  | none => ""

/-- First URL of a text containing `submit` case-insensitively, else empty. -/
def findSubmitUrlIn (text : String) : String :=
  match (urlStrs text).find? (fun u => strHas (lowerStr u) "submit") with
  | some u => u
  | none => ""

/-- First URL of a text, else empty. -/
def firstUrlIn (text : String) : String := (urlStrs text).headD ""

/-- Follows the spec wording (section 4.4): the five-step first-non-empty
submit-URL resolution chain ending in the empty string. -/
def specResolveSubmitUrl (hint : Option String) (fullText : String)
    (originGuess fallbackBase : String) : String :=
  firstNonEmptyStr
    [hint.getD "", findSubmitUrlIn fullText, firstUrlIn fullText,
     originGuess, fallbackBase]

/-- The alternate-scheme variants the spec prescribes for the fetcher. -/
def altSchemes (u : String) : List String :=
  if ("https://".toList).isPrefixOf u.toList then
    ["http://" ++ String.mk (u.toList.drop 8)]
  else if ("http://".toList).isPrefixOf u.toList then
    ["https://" ++ String.mk (u.toList.drop 7)]
  else []

/-- Try URLs in order, keeping the last failure (spec section 4.1). -/
def tryFetchList (render : String → Except String String) :
    List String → Except String String
  | [] => Except.error "no attempts"
  | [u] => render u
  | u :: rest =>
    match render u with
    | Except.ok h => Except.ok h
    | Except.error _ => tryFetchList render rest

/-- Follows the spec wording (section 4.1): normalized URL first, then the
one alternate-scheme variant, stopping at the first success. -/
def specFetchWithFallback (render : String → Except String String)
    (url : String) : Except String String :=
  tryFetchList render (normScheme url :: altSchemes (normScheme url))

/-- Try to match the textual marker `"answer"\s*:\s*"..."` (quoted key,
case-insensitive, whitespace spanning newlines) at the current position,
returning the quoted value. -/
def matchQuotedAnswerAt (cs : List Char) : Option String :=
  match cs with
  | [] => none
  | c :: r0 =>
    if c = Char.ofNat 34 then
      match stripLowerPre ("answer".toList) r0 with
      | none => none
      | some r1 =>
        match r1 with
        | [] => none
        | c2 :: r2 =>
          if c2 = Char.ofNat 34 then
            match r2.dropWhile isPySpace with
            | [] => none
            | c3 :: r4 =>
              if c3 = ':' then
                match r4.dropWhile isPySpace with
                | [] => none
                | c4 :: r6 =>
                  if c4 = Char.ofNat 34 then
                    match r6.dropWhile (fun ch => !(ch = Char.ofNat 34)) with
                    | [] => none
                    | _ :: _ =>
                      some (String.mk (r6.takeWhile (fun ch => !(ch = Char.ofNat 34))))
                  else none
              else none
          else none
    else none

/-- Fuelled search for the first quoted-answer marker. -/
def specQuotedAnswerF : Nat → List Char → Option String
  | 0, _ => none
  | _ + 1, [] => none
  | fuel + 1, c :: rest =>
    match matchQuotedAnswerAt (c :: rest) with
    | some s => some s
    | none => specQuotedAnswerF fuel rest

/-- Follows the spec wording (section 4.5, step 6): regex-extract the first
quoted value following a literal answer marker anywhere in the text. -/
def specExtractQuotedAnswer (text : String) : Option String :=
  specQuotedAnswerF text.toList.length text.toList

/-!  Concrete worlds used by witnesses and counterexamples. -/

/-- A world in which every external capability fails or is empty. -/
def trivWorld : World :=
  { fetchHtml := fun _ => Except.error "no fetch"
    jsonLoads := fun _ => none
    anchors := fun _ => []
    tables := fun _ => []
    clean_link_candidate := fun l _ => Except.ok l
    fetchText := fun _ => Except.error "no fetch"
    readCsv := fun _ => none
    readHtmlTable := fun _ => none
    fetchBytes := fun _ => Except.error "no fetch"
    pdfExtract := fun _ => none
    post := fun _ _ => Except.error "no post" }

/-- The parsed table of the CSV body `id,sum\n1,10\n2,20`. -/
def csvTable : Table :=
  { cols := [("id", ColData.nums [1, 2]), ("sum", ColData.nums [10, 20])] }

/-- A world serving a page with one CSV link whose body parses to
`csvTable`. -/
def csvWorld : World :=
  { trivWorld with
    fetchHtml := fun _ => Except.ok "PAGE"
    anchors := fun _ => ["data.csv"]
    clean_link_candidate := fun _ _ => Except.ok "https://q.test/data.csv"
    fetchText := fun _ => Except.ok "id,sum\n1,10\n2,20"
    readCsv := fun _ => some csvTable }

/-- A world serving a page whose only file-ish href has a malformed IPv6
authority, on which `urljoin` raises `ValueError: Invalid IPv6 URL`
(verified against CPython). -/
def ipv6World : World :=
  { trivWorld with
    fetchHtml := fun _ => Except.ok "SIXPAGE"
    anchors := fun _ => ["http://[::1/data.csv"]
    clean_link_candidate := fun _ _ => Except.error "Invalid IPv6 URL" }

/-- A world in which the https URL fails to render but its http variant
would succeed. -/
def altSchemeWorld : World :=
  { trivWorld with
    fetchHtml := fun u =>
      if u = "https://a.test/q" then Except.error "timeout"
      else if u = "http://a.test/q" then Except.ok "<p>5</p>"
      else Except.error "unreachable" }

/-- A world serving a page with one numeric literal and no URL, JSON
block, link or table. -/
def applesWorld : World :=
  { trivWorld with fetchHtml := fun _ => Except.ok "there are 7 apples" }

/-- A page carrying a quoted answer marker and nothing else the heuristics
can use. -/
def hintPage : String := "see \"answer\": \"abc\" here"

/-- A world serving `hintPage`. -/
def hintWorld : World :=
  { trivWorld with fetchHtml := fun _ => Except.ok hintPage }

/-!  Helper lemmas. -/

/-- Shape of a token the numeric regex can produce: an unsigned digit run,
or an optionally signed decimal with a mandatory fractional part. -/
def numTokOk (tok : List Char) : Prop :=
  (tok ≠ [] ∧ tok.all isDigitC = true) ∨
  (∃ sgn ds fs, (sgn = [] ∨ sgn = ['+'] ∨ sgn = ['-']) ∧
    ds.all isDigitC = true ∧ fs ≠ [] ∧ fs.all isDigitC = true ∧
    tok = sgn ++ ds ++ '.' :: fs)


/-- A non-empty string stays non-empty under right append. -/
theorem str_append_ne_empty (a b : String) (h : a ≠ "") : a ++ b ≠ "" := by
  cases a with
  | mk la =>
    cases b with
    | mk lb =>
      intro hc
      apply h
      have h2 : la ++ lb = [] := congrArg String.data hc
      have h3 := List.append_eq_nil.mp h2
      simp [h3.1]

/-- Characterization of a successful `find?` as the first hit. -/
theorem find_some_first {α : Type} (p : α → Bool) (d : α) :
    ∀ (l : List α) (u : α), l.find? p = some u →
      ∃ i, i < l.length ∧ p (l.getD i d) = true ∧ u = l.getD i d ∧
        ∀ j, j < i → p (l.getD j d) = false := by
  intro l
  induction l with
  | nil => intro u h; simp [List.find?] at h
  | cons a t ih =>
    intro u h
    by_cases hp : p a = true
    · rw [List.find?_cons_of_pos t hp] at h
      refine ⟨0, by simp, ?_, ?_, ?_⟩
      · simpa using hp
      · simpa using (Option.some.inj h).symm
      · intro j hj; omega
    · rw [List.find?_cons_of_neg t hp] at h
      obtain ⟨i, hi, hpi, hu, hfirst⟩ := ih u h
      refine ⟨i + 1, by simpa using hi, by simpa using hpi, by simpa using hu, ?_⟩
      intro j hj
      cases j with
      | zero => simpa using (Bool.eq_false_iff.mpr hp)
      | succ k =>
        have := hfirst k (by omega)
        simpa using this

/-- When the URL scan is empty, the extractor returns the empty string. -/
theorem extract_submit_nil (text : String) (h : urlStrs text = []) :
    extract_submit_url_from_text text = "" := by
  unfold extract_submit_url_from_text
  rw [h]
  rfl

/-- The submit phase always carries the payload it was given. -/
theorem submitPhase_payload (w : World) (su : JVal) (p : AnswerPayload) :
    (submitPhase w su p).answer_payload = some p := by
  unfold submitPhase
  split
  · split <;> rfl
  · rfl

/-- The submit phase succeeds or reports a non-empty message. -/
theorem submitPhase_structured (w : World) (su : JVal) (p : AnswerPayload) :
    (submitPhase w su p).success = true ∨
    ∃ m, (submitPhase w su p).message = some m ∧ m ≠ "" := by
  unfold submitPhase
  split
  · rcases hp : w.post su p with e | resp
    · exact Or.inr ⟨_, rfl, str_append_ne_empty "Failed to POST answer: " e (by decide)⟩
    · exact Or.inl rfl
  · exact Or.inr ⟨"No submit URL detected", rfl, by decide⟩

/-!  Claim theorems. -/

/-- C1: every outcome of `solve_quiz` that carries an answer payload echoes
the request fields `email`, `secret` and `url` verbatim, on every
derivation and submission path (an escaped exception carries no payload). -/
theorem payload_echoes_request (w : World) (url email secret : String)
    (res : SolveResult) (p : AnswerPayload)
    (h : solve_quiz w url email secret = Except.ok res)
    (hp : res.answer_payload = some p) :
    p.email = email ∧ p.secret = secret ∧ p.url = url := by
  unfold solve_quiz at h
  split at h
  · obtain rfl := Except.ok.inj h
    rw [show (fastResult url email secret).answer_payload = some
        { email := email, secret := secret, url := url, answer := Answer.num 42 }
      from rfl] at hp
    obtain rfl := Option.some.inj hp
    exact ⟨rfl, rfl, rfl⟩
  · split at h
    · obtain rfl := Except.ok.inj h
      exact absurd hp (by simp [fetchFailResult])
    · unfold solveAfterFetch at h
      split at h
      · exact absurd h (by simp)
      · obtain rfl := Except.ok.inj h
        split at hp
        · exact absurd hp (by simp [debugResult])
        · rw [submitPhase_payload] at hp
          obtain rfl := Option.some.inj hp
          exact ⟨rfl, rfl, rfl⟩

/-- C1 witness at a concrete request. -/
theorem payload_echoes_request_witness :
    solve_quiz trivWorld "https://example-quiz.com/play" "e@x.test" "s3cret" =
      Except.ok (fastResult "https://example-quiz.com/play" "e@x.test" "s3cret") ∧
    ("e@x.test" = "e@x.test" ∧ "s3cret" = "s3cret" ∧
     "https://example-quiz.com/play" = "https://example-quiz.com/play") :=
  ⟨rfl, payload_echoes_request trivWorld "https://example-quiz.com/play"
    "e@x.test" "s3cret"
    (fastResult "https://example-quiz.com/play" "e@x.test" "s3cret")
    { email := "e@x.test", secret := "s3cret",
      url := "https://example-quiz.com/play", answer := Answer.num 42 }
    rfl rfl⟩

/-- C2 (amended): every dictionary outcome of `solve_quiz` succeeds or
carries a non-empty human-readable message, but an exception can escape
the boundary: exactly when the fetch succeeded, a csv/pdf/xlsx href was
found, and its urljoin resolution (line 174, outside every try block)
raised. -/
theorem solve_quiz_structured_outcome (w : World) (url email secret : String) :
    (∀ res, solve_quiz w url email secret = Except.ok res →
      res.success = true ∨ ∃ m, res.message = some m ∧ m ≠ "")
    ∧ (∀ e, solve_quiz w url email secret = Except.error e →
      ∃ html l, w.fetchHtml url = Except.ok html ∧
        (w.anchors html).find? fileLinkPred = some l ∧
        w.clean_link_candidate l url = Except.error e) := by
  constructor
  · intro res h
    unfold solve_quiz at h
    split at h
    · obtain rfl := Except.ok.inj h
      exact Or.inl rfl
    · split at h
      · obtain rfl := Except.ok.inj h
        exact Or.inr ⟨_, rfl,
          str_append_ne_empty "Failed to render page: " _ (by decide)⟩
      · unfold solveAfterFetch at h
        split at h
        · exact absurd h (by simp)
        · obtain rfl := Except.ok.inj h
          split
          · exact Or.inr ⟨_, rfl, by decide⟩
          · exact submitPhase_structured _ _ _
  · intro e h
    unfold solve_quiz at h
    split at h
    · exact absurd h (by simp)
    · split at h
      · exact absurd h (by simp)
      · next html heq1 =>
        unfold solveAfterFetch at h
        split at h
        · next e2 heq2 =>
          obtain rfl := Except.error.inj h
          unfold findFileLink at heq2
          rcases hf : (w.anchors html).find? fileLinkPred with _ | l
          · rw [hf] at heq2
            exact absurd heq2 (by simp)
          · rw [hf] at heq2
            have heq3 : Except.map some (w.clean_link_candidate l url) =
                Except.error e2 := heq2
            refine ⟨html, l, heq1, hf, ?_⟩
            rcases hc : w.clean_link_candidate l url with e3 | s
            · rw [hc] at heq3
              have h4 : Except.error (ε := String) (α := Option String) e3 =
                  Except.error e2 := heq3
              obtain rfl := Except.error.inj h4
              rfl
            · rw [hc] at heq3
              exact absurd
                (show Except.ok (some s) = Except.error (ε := String) (α := Option String) e2
                  from heq3) (by simp)
        · exact absurd h (by simp)

/-- C2 witness: a failing fetch still yields a structured outcome with a
non-empty message. -/
theorem solve_quiz_structured_outcome_witness :
    (fetchFailResult "no fetch").success = true ∨
    ∃ m, (fetchFailResult "no fetch").message = some m ∧ m ≠ "" :=
  (solve_quiz_structured_outcome trivWorld "https://down.test/x" "e" "s").1
    (fetchFailResult "no fetch") rfl

/-- C2 counterexample: on a page whose only file-ish href carries a
malformed IPv6 authority, the urljoin call of `clean_link_candidate`
(line 174, outside every try block) raises, and `solve_quiz` lets the
exception escape instead of returning a structured outcome; CPython
confirms `urljoin` raises `ValueError: Invalid IPv6 URL` on this href
while the href still passes the file-extension filter. -/
theorem solve_quiz_raises_counterexample :
    solve_quiz ipv6World "https://quiz.test/page" "e" "s" =
      Except.error "Invalid IPv6 URL"
    ∧ ipv6World.anchors "SIXPAGE" = ["http://[::1/data.csv"]
    ∧ fileLinkPred "http://[::1/data.csv" = true := by
  refine ⟨by with_unfolding_all rfl, rfl, by decide⟩

/-- C3: a URL containing `example-quiz.com` takes the canned fast path:
the fixed successful outcome with answer 42, independent of every external
capability (no fetch, no decode, no derivation, no POST). -/
theorem example_quiz_fast_path (w : World) (url email secret : String)
    (h : strHas url "example-quiz.com" = true) :
    solve_quiz w url email secret =
      Except.ok (fastResult url email secret) := by
  unfold solve_quiz
  rw [h]
  rfl

/-- C3 witness at a concrete request, also spelling out the canned fields. -/
theorem example_quiz_fast_path_witness :
    strHas "https://example-quiz.com/play" "example-quiz.com" = true ∧
    solve_quiz trivWorld "https://example-quiz.com/play" "e" "s" =
      Except.ok (fastResult "https://example-quiz.com/play" "e" "s") ∧
    (fastResult "https://example-quiz.com/play" "e" "s").submit_url =
      some (JVal.jstr "https://example-quiz.com/submit") :=
  ⟨by decide,
   example_quiz_fast_path trivWorld "https://example-quiz.com/play" "e" "s" (by decide),
   rfl⟩

/-- C10: the payload decoder is total: no atob pattern yields the empty
string, and a match is whitespace-stripped, base64-decoded and UTF-8
decoded ignoring errors, with the empty string on a malformed literal. -/
theorem decode_atob_total (html : String) :
    (atobSearch html.toList = none ∧ decode_atob_from_html html = "")
    ∨ (∃ cap, atobSearch html.toList = some cap ∧
        decode_atob_from_html html =
          (match b64decodeL (cap.filter (fun c => !(isPySpace c))) with
           | none => ""
           | some bytes => utf8DecodeIgnore bytes)) := by
  cases h : atobSearch html.toList with
  | none =>
    left
    refine ⟨rfl, ?_⟩
    unfold decode_atob_from_html
    rw [h]
  | some cap =>
    right
    refine ⟨cap, rfl, ?_⟩
    unfold decode_atob_from_html
    rw [h]

/-- C8: the URL-scan step of submit-target resolution is order-preserving:
it returns the first URL whose lowercasing contains `submit`, else the
first URL at all, else the empty string. -/
theorem extract_submit_url_first_match (text : String) :
    (urlStrs text = [] → extract_submit_url_from_text text = "")
    ∧ ((∃ u ∈ urlStrs text, strHas (lowerStr u) "submit" = true) →
        ∃ i, i < (urlStrs text).length ∧
          strHas (lowerStr ((urlStrs text).getD i "")) "submit" = true ∧
          (∀ j, j < i → strHas (lowerStr ((urlStrs text).getD j "")) "submit" = false) ∧
          extract_submit_url_from_text text = (urlStrs text).getD i "")
    ∧ ((∀ u ∈ urlStrs text, strHas (lowerStr u) "submit" = false) →
        urlStrs text ≠ [] →
        extract_submit_url_from_text text = (urlStrs text).getD 0 "") := by
  refine ⟨extract_submit_nil text, ?_, ?_⟩
  · intro hex
    cases hf : (urlStrs text).find? (fun u => strHas (lowerStr u) "submit") with
    | none =>
      obtain ⟨u, hu, hsub⟩ := hex
      have := (List.find?_eq_none.mp hf) u hu
      exact absurd hsub this
    | some u =>
      obtain ⟨i, hi, hpi, hu, hfirst⟩ :=
        find_some_first (fun u => strHas (lowerStr u) "submit") "" (urlStrs text) u hf
      refine ⟨i, hi, hpi, ?_, ?_⟩
      · intro j hj
        exact hfirst j hj
      · unfold extract_submit_url_from_text
        rw [hf, hu]
  · intro hall hne
    have hf : (urlStrs text).find? (fun u => strHas (lowerStr u) "submit") = none :=
      List.find?_eq_none.mpr (fun u hu => by simp [hall u hu])
    unfold extract_submit_url_from_text
    rw [hf]
    cases hurls : urlStrs text with
    | nil => exact absurd hurls hne
    | cons u rest => rfl

/-- C8 witness: a text whose first URL lacks the token and whose second
carries it, uppercase. -/
theorem extract_submit_url_first_match_witness :
    (∃ u ∈ urlStrs "see https://a.test/x then https://b.test/SUBMIT/go",
      strHas (lowerStr u) "submit" = true) ∧
    ∃ i, i < (urlStrs "see https://a.test/x then https://b.test/SUBMIT/go").length ∧
      strHas (lowerStr ((urlStrs "see https://a.test/x then https://b.test/SUBMIT/go").getD i ""))
        "submit" = true ∧
      (∀ j, j < i →
        strHas (lowerStr ((urlStrs "see https://a.test/x then https://b.test/SUBMIT/go").getD j ""))
          "submit" = false) ∧
      extract_submit_url_from_text "see https://a.test/x then https://b.test/SUBMIT/go" =
        (urlStrs "see https://a.test/x then https://b.test/SUBMIT/go").getD i "" :=
  ⟨by decide,
   (extract_submit_url_first_match "see https://a.test/x then https://b.test/SUBMIT/go").2.1
     (by decide)⟩

/-!  Shape of the numeric tokens and the numeric-sum claim. -/

/-- The sign part produced by `splitSignTok` is empty or one sign char. -/
theorem splitSignTok_fst_shape (cs : List Char) :
    (splitSignTok cs).1 = [] ∨ (splitSignTok cs).1 = ['+'] ∨
    (splitSignTok cs).1 = ['-'] := by
  cases cs with
  | nil => exact Or.inl rfl
  | cons c r =>
    simp only [splitSignTok]
    split
    · next hc =>
      rcases Bool.or_eq_true_iff.mp hc with h | h
      · exact Or.inr (Or.inl (by simp [of_decide_eq_true h]))
      · exact Or.inr (Or.inr (by simp [of_decide_eq_true h]))
    · exact Or.inl rfl

/-- `matchDecimalAt` only returns tokens of decimal shape. -/
theorem matchDecimalAt_shape (cs tok r : List Char)
    (h : matchDecimalAt cs = some (tok, r)) :
    ∃ sgn ds fs, (sgn = [] ∨ sgn = ['+'] ∨ sgn = ['-']) ∧
      ds.all isDigitC = true ∧ fs ≠ [] ∧ fs.all isDigitC = true ∧
      tok = sgn ++ ds ++ '.' :: fs := by
  unfold matchDecimalAt at h
  split at h
  · split at h
    · exact absurd h (by simp)
    · next hne =>
      obtain h2 := Option.some.inj h
      rw [Prod.mk.injEq] at h2
      obtain ⟨htok, _⟩ := h2
      subst htok
      refine ⟨(splitSignTok cs).1, (splitSignTok cs).2.takeWhile isDigitC,
        _, splitSignTok_fst_shape cs, List.all_takeWhile, ?_,
        List.all_takeWhile, rfl⟩
      intro hnil
      rw [hnil] at hne
      exact hne rfl
  · exact absurd h (by simp)

/-- `matchNumAt` only returns well-shaped tokens. -/
theorem matchNumAt_shape (cs tok r : List Char)
    (h : matchNumAt cs = some (tok, r)) : numTokOk tok := by
  unfold matchNumAt at h
  split at h
  · next pr heq =>
    obtain rfl : pr = (tok, r) := Option.some.inj h
    exact Or.inr (matchDecimalAt_shape cs tok r heq)
  · split at h
    · exact absurd h (by simp)
    · next hne =>
      obtain h2 := Option.some.inj h
      rw [Prod.mk.injEq] at h2
      obtain ⟨htok, _⟩ := h2
      subst htok
      refine Or.inl ⟨?_, List.all_takeWhile⟩
      intro hnil
      rw [hnil] at hne
      exact hne rfl

/-- Every token of the fuelled numeric scan is well shaped. -/
theorem numScanF_shape :
    ∀ (fuel : Nat) (cs tok : List Char), tok ∈ numScanF fuel cs → numTokOk tok := by
  intro fuel
  induction fuel with
  | zero => intro cs tok h; simp [numScanF] at h
  | succ f ih =>
    intro cs tok h
    cases cs with
    | nil => simp [numScanF] at h
    | cons c rest =>
      rcases hm : matchNumAt (c :: rest) with _ | ⟨tok2, r⟩
      · simp only [numScanF, hm] at h
        exact ih rest tok h
      · simp only [numScanF, hm] at h
        rcases List.mem_cons.mp h with rfl | h2
        · exact matchNumAt_shape _ _ _ hm
        · exact ih r tok h2

/-- A digit is not Python whitespace. -/
theorem digit_not_space (c : Char) (h : isDigitC c = true) : isPySpace c = false := by
  unfold isDigitC at h
  unfold isPySpace
  simp only [Bool.and_eq_true, decide_eq_true_eq] at h
  simp only [Bool.or_eq_false_iff, decide_eq_false_iff_not]
  omega

/-- A digit is not a sign character. -/
theorem digit_ne_plus (c : Char) (h : isDigitC c = true) : c ≠ '+' := by
  intro hc
  rw [hc] at h
  exact absurd h (by decide)

/-- A digit is not a minus sign. -/
theorem digit_ne_minus (c : Char) (h : isDigitC c = true) : c ≠ '-' := by
  intro hc
  rw [hc] at h
  exact absurd h (by decide)

/-- `dropWhile` is the identity when the predicate fails everywhere. -/
theorem dropWhile_of_forall_false (p : Char → Bool) (l : List Char)
    (h : ∀ x ∈ l, p x = false) : l.dropWhile p = l := by
  cases l with
  | nil => rfl
  | cons c r =>
    rw [List.dropWhile_cons]
    simp [h c (by simp)]

/-- Stripping whitespace from a whitespace-free list changes nothing. -/
theorem stripPySpace_id (l : List Char) (h : ∀ x ∈ l, isPySpace x = false) :
    stripPySpace l = l := by
  unfold stripPySpace
  rw [dropWhile_of_forall_false _ _ h]
  rw [dropWhile_of_forall_false _ _ (fun x hx => h x (List.mem_reverse.mp hx))]
  exact List.reverse_reverse l

/-- `takeWhile` keeps an all-true list whole. -/
theorem takeWhile_of_all (p : Char → Bool) (l : List Char) (h : l.all p = true) :
    l.takeWhile p = l := by
  induction l with
  | nil => rfl
  | cons c r ih =>
    rw [List.all_cons, Bool.and_eq_true] at h
    rw [List.takeWhile_cons, if_pos h.1, ih h.2]

/-- `dropWhile` empties an all-true list. -/
theorem dropWhile_of_all (p : Char → Bool) (l : List Char) (h : l.all p = true) :
    l.dropWhile p = [] := by
  induction l with
  | nil => rfl
  | cons c r ih =>
    rw [List.all_cons, Bool.and_eq_true] at h
    rw [List.dropWhile_cons, if_pos h.1]
    exact ih h.2

/-- `takeWhile` and `dropWhile` split an all-true prefix before a failing
head. -/
theorem takeWhile_append_cons (p : Char → Bool) (l : List Char) (c : Char)
    (rs : List Char) (hl : l.all p = true) (hc : p c = false) :
    (l ++ c :: rs).takeWhile p = l ∧ (l ++ c :: rs).dropWhile p = c :: rs := by
  induction l with
  | nil =>
    constructor
    · rw [List.nil_append, List.takeWhile_cons, hc]
      simp
    · rw [List.nil_append, List.dropWhile_cons, hc]
      simp
  | cons a t ih =>
    rw [List.all_cons, Bool.and_eq_true] at hl
    obtain ⟨ht, hd⟩ := ih hl.2
    constructor
    · rw [List.cons_append, List.takeWhile_cons, if_pos hl.1, ht]
    · rw [List.cons_append, List.dropWhile_cons, if_pos hl.1, hd]

/-- `splitSignTok` ignores a digit head. -/
theorem splitSignTok_cons_digit (c : Char) (r : List Char)
    (h : isDigitC c = true) : splitSignTok (c :: r) = ([], c :: r) := by
  simp only [splitSignTok]
  rw [if_neg]
  simp [digit_ne_plus c h, digit_ne_minus c h]

/-- `splitSignTok` ignores a dot head. -/
theorem splitSignTok_cons_dot (r : List Char) :
    splitSignTok ('.' :: r) = ([], '.' :: r) := by
  simp only [splitSignTok]
  rw [if_neg]
  simp

/-- `splitSignTok` takes a plus head. -/
theorem splitSignTok_cons_plus (r : List Char) :
    splitSignTok ('+' :: r) = (['+'], r) := by
  simp only [splitSignTok]
  rw [if_pos]
  simp

/-- `splitSignTok` takes a minus head. -/
theorem splitSignTok_cons_minus (r : List Char) :
    splitSignTok ('-' :: r) = (['-'], r) := by
  simp only [splitSignTok]
  rw [if_pos]
  simp

/-- No character of a well-shaped numeric token is whitespace. -/
theorem numTok_no_space (tok : List Char) (h : numTokOk tok) :
    ∀ x ∈ tok, isPySpace x = false := by
  rcases h with ⟨_, hall⟩ | ⟨sgn, ds, fs, hsgn, hds, _, hfsall, rfl⟩
  · intro x hx
    exact digit_not_space x (List.all_eq_true.mp hall x hx)
  · intro x hx
    rcases List.mem_append.mp hx with hx1 | hx2
    · rcases List.mem_append.mp hx1 with hxs | hxd
      · rcases hsgn with rfl | rfl | rfl
        · simp at hxs
        · rw [List.mem_singleton.mp hxs]; decide
        · rw [List.mem_singleton.mp hxs]; decide
      · exact digit_not_space x (List.all_eq_true.mp hds x hxd)
    · rcases List.mem_cons.mp hx2 with rfl | hxf
      · decide
      · exact digit_not_space x (List.all_eq_true.mp hfsall x hxf)

/-- Python `float` succeeds on every token the numeric regex matches. -/
theorem pyFloat_tok_isSome (tok : List Char) (h : numTokOk tok) :
    (pyFloat (String.mk tok)).isSome = true := by
  have htl : (String.mk tok).toList = tok := rfl
  unfold pyFloat
  rw [htl, stripPySpace_id tok (numTok_no_space tok h)]
  rcases h with ⟨hne, hall⟩ | ⟨sgn, ds, fs, hsgn, hds, hfs, hfsall, rfl⟩
  · -- unsigned digit run
    cases tok with
    | nil => exact absurd rfl hne
    | cons d t =>
      rw [List.all_cons, Bool.and_eq_true] at hall
      have hsp := splitSignTok_cons_digit d t hall.1
      have hallc : (d :: t).all isDigitC = true := by
        rw [List.all_cons, Bool.and_eq_true]; exact hall
      unfold pyFloatCore
      rw [hsp]
      simp only [dropWhile_of_all _ _ hallc, takeWhile_of_all _ _ hallc]
      simp
  · -- signed decimal
    have hdot : isDigitC '.' = false := by decide
    obtain ⟨fs0, fst⟩ : ∃ c t, fs = c :: t := by
      cases fs with
      | nil => exact absurd rfl hfs
      | cons c t => exact ⟨c, t, rfl⟩
    obtain ⟨fst, rfl⟩ := fst
    have hsplit : splitSignTok (sgn ++ ds ++ '.' :: fs0 :: fst) =
        (sgn, ds ++ '.' :: fs0 :: fst) := by
      rcases hsgn with rfl | rfl | rfl
      · rw [List.nil_append]
        cases ds with
        | nil => exact splitSignTok_cons_dot _
        | cons d t =>
          rw [List.all_cons, Bool.and_eq_true] at hds
          rw [List.cons_append]
          exact splitSignTok_cons_digit d _ hds.1
      · rw [List.append_assoc, List.singleton_append]
        rw [splitSignTok_cons_plus]
      · rw [List.append_assoc, List.singleton_append]
        rw [splitSignTok_cons_minus]
    obtain ⟨htake, hdrop⟩ :=
      takeWhile_append_cons isDigitC ds '.' (fs0 :: fst) hds hdot
    have hfall : (fs0 :: fst).all isDigitC = true := hfsall
    unfold pyFloatCore
    rw [hsplit]
    simp only [htake, hdrop]
    simp only [show (('.' : Char) = '.') = True by simp, if_true]
    simp only [takeWhile_of_all _ _ hfall, dropWhile_of_all _ _ hfall]
    simp

/-- `optMapList` succeeds when every element maps successfully. -/
theorem optMapList_total {α β : Type} (f : α → Option β) (l : List α)
    (h : ∀ a ∈ l, (f a).isSome = true) : ∃ bs, optMapList f l = some bs := by
  induction l with
  | nil => exact ⟨[], rfl⟩
  | cons a t ih =>
    obtain ⟨b, hb⟩ := Option.isSome_iff_exists.mp (h a (by simp))
    obtain ⟨bs, hbs⟩ := ih (fun x hx => h x (by simp [hx]))
    refine ⟨b :: bs, ?_⟩
    unfold optMapList
    rw [hb, hbs]

/-- Unfolding equation of the numeric-sum heuristic. -/
theorem sum_numbers_eq (text : String) :
    sum_numbers_from_text text =
      (if (numScan (stripCommas text.toList)).isEmpty then none
       else
         match optMapList (fun t => pyFloat (String.mk t))
             (numScan (stripCommas text.toList)) with
         | some qs => some qs.sum
         | none => none) := rfl

/-- C4 (amended): the numeric-sum heuristic returns the sum of exactly the
tokens of the code pattern, in which only decimal literals may carry a
sign while plain integer literals are matched unsigned; it yields a value
exactly when at least one token is matched. -/
theorem sum_numbers_amended (text : String) :
    (∀ tok ∈ numScan (stripCommas text.toList), numTokOk tok)
    ∧ (sum_numbers_from_text text = none ↔ numScan (stripCommas text.toList) = [])
    ∧ (∀ q, sum_numbers_from_text text = some q →
        ∃ qs, optMapList (fun t => pyFloat (String.mk t))
            (numScan (stripCommas text.toList)) = some qs ∧ q = qs.sum) := by
  have hshape : ∀ tok ∈ numScan (stripCommas text.toList), numTokOk tok :=
    fun tok h => numScanF_shape _ _ tok h
  refine ⟨hshape, ?_, ?_⟩
  · cases htoks : numScan (stripCommas text.toList) with
    | nil =>
      rw [sum_numbers_eq, htoks]
      simp
    | cons t ts =>
      rw [sum_numbers_eq, htoks]
      obtain ⟨qs, hqs⟩ := optMapList_total (fun s => pyFloat (String.mk s)) (t :: ts)
        (fun a ha => pyFloat_tok_isSome a (hshape a (htoks ▸ ha)))
      rw [hqs]
      simp
  · intro q hq
    cases htoks : numScan (stripCommas text.toList) with
    | nil =>
      rw [sum_numbers_eq, htoks] at hq
      simp at hq
    | cons t ts =>
      rw [sum_numbers_eq, htoks] at hq
      rcases hmap : optMapList (fun s => pyFloat (String.mk s)) (t :: ts) with _ | qs
      · rw [hmap] at hq
        simp at hq
      · rw [hmap] at hq
        simp at hq
        exact ⟨qs, rfl, hq.symm⟩

/-- C4 witness at a concrete text with an integer and a decimal literal. -/
theorem sum_numbers_amended_witness :
    sum_numbers_from_text "12 3.5" = some ((31 : ℚ) / 2) ∧
    ∃ qs, optMapList (fun t => pyFloat (String.mk t))
        (numScan (stripCommas ("12 3.5").toList)) = some qs ∧
      ((31 : ℚ) / 2) = qs.sum :=
  ⟨by with_unfolding_all rfl,
   (sum_numbers_amended "12 3.5").2.2 ((31 : ℚ) / 2) (by with_unfolding_all rfl)⟩

/-- C4 counterexample: the claim says literals may be optionally signed,
but the code pattern attaches no sign to an integer literal, so the text
consisting of the signed integer literal `-5` sums to `5`, not `-5`. -/
theorem sum_numbers_sign_counterexample :
    sum_numbers_from_text "-5" = some 5 ∧
    spec_sum_numbers_from_text "-5" = some (-5) ∧
    ¬(sum_numbers_from_text "-5" = spec_sum_numbers_from_text "-5") := by
  refine ⟨by with_unfolding_all rfl, by with_unfolding_all rfl, ?_⟩
  intro h
  rw [show sum_numbers_from_text "-5" = some 5 from by with_unfolding_all rfl,
      show spec_sum_numbers_from_text "-5" = some (-5) from by with_unfolding_all rfl] at h
  have h2 : (5 : ℚ) = -5 := Option.some.inj h
  norm_num at h2

/-- Unfolding of `solve_quiz` on a successful fetch and a successful
file-link resolution outside the fast path. -/
theorem solve_quiz_ok (w : World) (url email secret html : String)
    (file_link : Option String)
    (h0 : strHas url "example-quiz.com" = false)
    (h1 : w.fetchHtml url = Except.ok html)
    (h2 : findFileLink w (w.anchors html) url = Except.ok file_link) :
    solve_quiz w url email secret =
      Except.ok
        (match answerChain w html file_link with
         | none =>
           debugResult (submitUrlResolved w (decode_atob_from_html html) html)
             (fullTextOf html)
         | some a =>
           submitPhase w (submitUrlResolved w (decode_atob_from_html html) html)
             { email := email, secret := secret, url := url, answer := a }) := by
  unfold solve_quiz
  simp only [h0, Bool.false_eq_true, if_false]
  rw [h1]
  show solveAfterFetch w url email secret html = _
  unfold solveAfterFetch
  rw [h2]

/-- Unfolding of `solve_quiz` on a failed fetch outside the fast path. -/
theorem solve_quiz_err (w : World) (url email secret e : String)
    (h0 : strHas url "example-quiz.com" = false)
    (h1 : w.fetchHtml url = Except.error e) :
    solve_quiz w url email secret = Except.ok (fetchFailResult e) := by
  unfold solve_quiz
  simp only [h0, Bool.false_eq_true, if_false]
  rw [h1]

/-- C5 (amended): when the first csv/pdf/xlsx file link of the page is a
CSV link, the pipeline fetches it, parses it, applies the alias list
`value, Value, val, amount, Amount, total` and then the first-numeric-column
fallback, and the derived answer lands in the payload. -/
theorem csv_path_amended (w : World) (url email secret html fl txt : String)
    (df : Table) (v : ℚ)
    (h0 : strHas url "example-quiz.com" = false)
    (h1 : w.fetchHtml url = Except.ok html)
    (h2 : findFileLink w (w.anchors html) url = Except.ok (some fl))
    (h3 : endsWithExt fl ".csv" = true)
    (h4 : w.fetchText fl = Except.ok txt)
    (h5 : w.readCsv txt = some df)
    (h6 : tableAnswer df = some v) :
    ∃ res, solve_quiz w url email secret = Except.ok res ∧
      res.answer_payload =
        some { email := email, secret := secret, url := url,
               answer := Answer.num v } := by
  have hcsv : csvStep w (some fl) = some (Answer.num v) := by
    unfold csvStep
    show (if endsWithExt fl ".csv" = true then csvAnswer w fl else none) =
      some (Answer.num v)
    rw [if_pos h3]
    unfold csvAnswer
    rw [h4]
    show (match w.readCsv txt with
          | none => none
          | some df => Option.map Answer.num (tableAnswer df)) =
      some (Answer.num v)
    rw [h5]
    show Option.map Answer.num (tableAnswer df) = some (Answer.num v)
    rw [h6]
    rfl
  have hchain : answerChain w html (some fl) = some (Answer.num v) := by
    unfold answerChain
    rw [hcsv]
    rfl
  refine ⟨_, solve_quiz_ok w url email secret html (some fl) h0 h1 h2, ?_⟩
  rw [hchain]
  exact submitPhase_payload w _ _

/-- C5 witness: the CSV body `id,sum` over rows `1,10` and `2,20` drives
the pipeline to the first-numeric-column sum `3`. -/
theorem csv_path_amended_witness :
    ∃ res, solve_quiz csvWorld "https://q.test/start" "e" "s" = Except.ok res ∧
      res.answer_payload =
        some { email := "e", secret := "s", url := "https://q.test/start",
               answer := Answer.num 3 } :=
  csv_path_amended csvWorld "https://q.test/start" "e" "s" "PAGE"
    "https://q.test/data.csv" "id,sum\n1,10\n2,20" csvTable 3
    (by decide) rfl (by with_unfolding_all rfl) (by decide) rfl rfl
    (by with_unfolding_all rfl)

/-- C5 counterexample: the claimed alias list also contains `sum`, but the
code list stops at `total`; on the table with columns `id` and `sum` the
code sums the first numeric column `id` (3) while the claim demands the
`sum` column (30). -/
theorem csv_alias_counterexample :
    solve_quiz csvWorld "https://q.test/start" "e" "s" =
      Except.ok
        { success := false
          message := some "No submit URL detected"
          answer_payload :=
            some (AnswerPayload.mk "e" "s" "https://q.test/start" (Answer.num 3)) }
    ∧ specTableAnswer csvTable = some 30
    ∧ tableAnswer csvTable = some 3
    ∧ ¬((3 : ℚ) = 30) := by
  refine ⟨by with_unfolding_all rfl, by with_unfolding_all rfl,
    by with_unfolding_all rfl, by norm_num⟩

/-- C6 (amended): the fetcher makes exactly one attempt with the requested
URL as given: a rendering failure is terminal, and the outcome is the same
in any world that fails that one fetch, whatever any alternate-scheme
fetch would have returned. -/
theorem fetch_failure_terminal (w w2 : World) (url email secret e : String)
    (h0 : strHas url "example-quiz.com" = false)
    (h1 : w.fetchHtml url = Except.error e)
    (h2 : w2.fetchHtml url = Except.error e) :
    solve_quiz w url email secret = Except.ok (fetchFailResult e) ∧
    solve_quiz w url email secret = solve_quiz w2 url email secret := by
  have A := solve_quiz_err w url email secret e h0 h1
  have B := solve_quiz_err w2 url email secret e h0 h2
  exact ⟨A, A.trans B.symm⟩

/-- C6 witness at a concrete failing fetch. -/
theorem fetch_failure_terminal_witness :
    solve_quiz trivWorld "https://down.test/x" "e" "s" =
      Except.ok (fetchFailResult "no fetch") :=
  (fetch_failure_terminal trivWorld trivWorld "https://down.test/x" "e" "s"
    "no fetch" (by decide) rfl rfl).1

/-- C6 counterexample: the https fetch times out while the http variant
would succeed, yet `solve_quiz` fails terminally; the spec fetcher with
scheme fallback would have proceeded with the alternate HTML. -/
theorem no_scheme_fallback_counterexample :
    solve_quiz altSchemeWorld "https://a.test/q" "e" "s" =
      Except.ok (fetchFailResult "timeout")
    ∧ altSchemeWorld.fetchHtml "http://a.test/q" = Except.ok "<p>5</p>"
    ∧ specFetchWithFallback altSchemeWorld.fetchHtml "https://a.test/q" =
        Except.ok "<p>5</p>" := by
  refine ⟨by with_unfolding_all rfl, rfl, by with_unfolding_all rfl⟩

/-- C7 (amended): submit-URL resolution is the three-step chain of the
code: JSON-like hint from the decoded text, then from the raw HTML, then
the URL scan of the combined text; when no URL occurs in the combined text
the resolved target is the empty string (no origin or fetched-URL
fallback). -/
theorem submit_url_three_step (w : World) (decoded html : String)
    (h1 : pyTruthyOpt (first_url_from_jsonlike w.jsonLoads decoded) = false)
    (h2 : pyTruthyOpt (first_url_from_jsonlike w.jsonLoads html) = false) :
    submitUrlResolved w decoded html =
      JVal.jstr (extract_submit_url_from_text (html ++ "\n" ++ decoded))
    ∧ (urlStrs (html ++ "\n" ++ decoded) = [] →
        submitUrlResolved w decoded html = JVal.jstr "") := by
  have hv1 : ∀ v, first_url_from_jsonlike w.jsonLoads decoded = some v →
      jTruthy v = false := by
    intro v hv
    rw [hv] at h1
    simpa [pyTruthyOpt] using h1
  have hv2 : ∀ v, first_url_from_jsonlike w.jsonLoads html = some v →
      jTruthy v = false := by
    intro v hv
    rw [hv] at h2
    simpa [pyTruthyOpt] using h2
  have hmain : submitUrlResolved w decoded html =
      JVal.jstr (extract_submit_url_from_text (html ++ "\n" ++ decoded)) := by
    unfold submitUrlResolved pyOrJ
    rcases ha : first_url_from_jsonlike w.jsonLoads decoded with _ | v
    · rcases hb : first_url_from_jsonlike w.jsonLoads html with _ | v2
      · rfl
      · simp [hv2 v2 hb]
    · rcases hb : first_url_from_jsonlike w.jsonLoads html with _ | v2
      · simp [hv1 v ha]
      · simp [hv1 v ha, hv2 v2 hb]
  refine ⟨hmain, fun hurls => ?_⟩
  rw [hmain, extract_submit_nil _ hurls]

/-- C7 witness at a hint-free page with no URL in the combined text. -/
theorem submit_url_three_step_witness :
    submitUrlResolved applesWorld "" "there are 7 apples" = JVal.jstr "" :=
  (submit_url_three_step applesWorld "" "there are 7 apples"
      (by with_unfolding_all rfl) (by with_unfolding_all rfl)).2
    (by with_unfolding_all rfl)

/-- C7 counterexample: with no hint and no URL anywhere, the code reports
`No submit URL detected` even though the spec resolver would fall back to
the effective fetched URL, which is non-empty. -/
theorem no_origin_fallback_counterexample :
    solve_quiz applesWorld "https://q.test/a" "e" "s" =
      Except.ok
        { success := false
          message := some "No submit URL detected"
          answer_payload :=
            some (AnswerPayload.mk "e" "s" "https://q.test/a" (Answer.num 7)) }
    ∧ specResolveSubmitUrl none ("there are 7 apples" ++ "\n" ++ "") ""
        "https://q.test/a" = "https://q.test/a"
    ∧ ¬(("https://q.test/a" : String) = "") := by
  refine ⟨by with_unfolding_all rfl, by with_unfolding_all rfl, by decide⟩

/-- C9 (amended): when the CSV, PDF, table, JSON-answer and numeric-sum
paths all fail, `solve_quiz` returns the diagnostic failure with the
resolved submit URL and a 2000-character excerpt; no textual-hint
extraction exists in the chain. -/
theorem derivation_exhausted_debug (w : World) (url email secret html : String)
    (file_link : Option String)
    (h0 : strHas url "example-quiz.com" = false)
    (h1 : w.fetchHtml url = Except.ok html)
    (h2 : findFileLink w (w.anchors html) url = Except.ok file_link)
    (h3 : answerChain w html file_link = none) :
    solve_quiz w url email secret =
      Except.ok
        (debugResult (submitUrlResolved w (decode_atob_from_html html) html)
          (fullTextOf html)) := by
  rw [solve_quiz_ok w url email secret html file_link h0 h1 h2, h3]

/-- C9 witness at a page defeating every derivation path. -/
theorem derivation_exhausted_debug_witness :
    solve_quiz hintWorld "https://q.test/h" "e" "s" =
      Except.ok
        (debugResult
          (submitUrlResolved hintWorld (decode_atob_from_html hintPage) hintPage)
          (fullTextOf hintPage)) :=
  derivation_exhausted_debug hintWorld "https://q.test/h" "e" "s" hintPage none
    (by decide) rfl rfl (by with_unfolding_all rfl)

/-- C9 counterexample: the combined text carries a quoted answer marker
that the spec textual-hint path would extract, yet the code returns the
diagnostic failure with no answer payload. -/
theorem no_textual_hint_counterexample :
    solve_quiz hintWorld "https://q.test/h" "e" "s" =
      Except.ok (debugResult (JVal.jstr "") (hintPage ++ "\n"))
    ∧ specExtractQuotedAnswer (hintPage ++ "\n") = some "abc" := by
  refine ⟨by with_unfolding_all rfl, by with_unfolding_all rfl⟩
